import Mathlib

/-!
Verification development for the `crm-user-sync` repository.

The core pipeline lives in `src/crm-user-sync.py`:
  `handler.do_POST` decodes a JSON webhook payload, normalizes a purchase
  event, runs `process_purchase` (lookup / create / update against the
  remote user platform, with `request_with_retry` around each network
  call), appends a row to `sales.csv` via `append_to_sales_csv`, and
  reports `get_sales_row_count`.

The embedding below mirrors those functions.  Python/JSON values are
modelled by the inductive `Crm.PyVal` (JSON numbers are modelled as
integers; fractional literals are not needed by any claim).  The sales
file is modelled as `Option` of a list of CSV records, where a record is
the list of its fields; a record corresponds to one physical line of the
file provided its fields contain no comma, quote or newline characters
(the `csvPlain` predicate marks that model boundary where a claim
depends on line counts).  Network I/O is made explicit: the outcome of
each (already-retried) remote call is supplied by an oracle argument,
and `request_with_retry` itself is modelled separately over a sequence
of per-attempt outcomes.
-/

namespace Crm

/-- Model of a decoded Python/JSON value as produced by `json.loads`.
JSON numbers are modelled as integers (no claim needs fractions). -/
inductive PyVal where
  | str (s : String)
  | int (n : Int)
  | bool (b : Bool)
  | none
  | obj (fields : List (String × PyVal))
  | list (elems : List PyVal)
deriving Repr

/-- Python truthiness (`bool(v)`) for the modelled values: `None`, `0`,
 empty string, empty dict and empty list are falsy. -/
def truthy : PyVal → Bool
  | PyVal.str s => !(s == "")
  | PyVal.int n => !(n == 0)
  | PyVal.bool b => b
  | PyVal.none => false
  | PyVal.obj fields => !fields.isEmpty
  | PyVal.list elems => !elems.isEmpty

/-- Python `dict` lookup on the association-list model of a JSON object.
`json.loads` keeps the last occurrence of a duplicated key, so the fold
keeps the last binding. -/
def dictGet (fields : List (String × PyVal)) (k : String) : Option PyVal :=
  fields.foldl (fun acc kv => if kv.1 == k then some kv.2 else acc) Option.none

/-- The string `csv.writer` emits for a field value: strings verbatim,
`None` as the empty string, numbers and booleans via `str()`.  Container
values never reach the writer in any claim considered here, so their
`str()` representation is not modelled precisely. -/
def csvField : PyVal → String
  | PyVal.str s => s
  | PyVal.int n => toString n
  | PyVal.bool b => if b then "True" else "False"
  | PyVal.none => ""
  | PyVal.obj _ => "<container>"
  | PyVal.list _ => "<container>"

/-- A field string that `csv.writer` writes without quoting, so that one
record occupies exactly one physical line of the file. -/
def csvPlain (s : String) : Bool :=
  !(s.data.any fun c => c == ',' || c == '"' || c == '\n' || c == '\r')

/-- `DEFAULT_PLAN = os.getenv("MYPLATFORM_DEFAULT_PLAN", "free")`,
modelled at its default value. -/
def DEFAULT_PLAN : String := "free"

/-! ## Sales CSV functions (`append_to_sales_csv`, `get_sales_row_count`) -/

/-- The sales file: `Option.none` when the file does not exist, otherwise
the list of CSV records (each record the list of its fields). -/
abbrev SalesFile := Option (List (List String))

/-- The header row written by `append_to_sales_csv`:
`header = ["date", "email", "product", "amount", "plan"]`. -/
def header : List String := ["date", "email", "product", "amount", "plan"]

/-- The row filter used when re-reading the existing file:
`len(r)==5 and r[0] != "date"`. -/
def wellFormedRow (r : List String) : Bool :=
  r.length == 5 && !(r.head? == some "date")

/-- `append_to_sales_csv(date, email, product, amount, plan)`: read the
existing records (none if the file does not exist), keep those passing
the filter, append the new row, and rewrite the whole file with the
header first. -/
def append_to_sales_csv (date email product amount plan : String)
    (file : SalesFile) : SalesFile :=
  let rows := match file with
    | Option.none => []
    | some recs => recs.filter wellFormedRow
  some (header :: (rows ++ [[date, email, product, amount, plan]]))

/-- `get_sales_row_count()`: `0` when the file does not exist, otherwise
the number of lines minus one.  The source counts physical lines; in
this model each record stands for one line, which matches the source
exactly when every field is `csvPlain` (a field containing a line break
is quoted by `csv.writer` across several physical lines, each counted
by the source), so theorems whose truth depends on line counting over
symbolic rows carry `csvPlain` hypotheses. -/
def get_sales_row_count (file : SalesFile) : Int :=
  match file with
  | Option.none => 0
  | some recs => (recs.length : Int) - 1

/-! ## Retry wrapper (`request_with_retry`) -/

/-- Outcome of one underlying `requests.request` attempt: a transport
error (exception before any response) or a response with a status. -/
inductive AttemptOutcome where
  | transportError (msg : String)
  | response (status : Nat) (body : PyVal)
deriving Repr

/-- `resp.raise_for_status()` raises exactly when the status is 4xx or
5xx (`400 <= status < 600`). -/
def raise_for_status (status : Nat) : Bool :=
  decide (400 ≤ status ∧ status < 600)

/-- Whether an attempt ends in the `except` branch of the retry loop:
a transport error, or a response on which `raise_for_status` raises. -/
def attemptFails : AttemptOutcome → Bool
  | AttemptOutcome.transportError _ => true
  | AttemptOutcome.response s _ => raise_for_status s

/-- Observable result of `request_with_retry`: the final outcome
(success with status and body, or the propagated error), the number of
attempts made, and the `time.sleep` delays in milliseconds. -/
structure RetryResult where
  outcome : Except String (Nat × PyVal)
  attemptsMade : Nat
  sleepsMs : List Nat
deriving Repr

/-- The body of `for attempt in range(3)`, over the remaining attempt
indices.  On failure at index `i`: re-raise if `i == 2`, otherwise sleep
`0.5*(i+1)` seconds and continue. -/
def retryLoop (att : Nat → AttemptOutcome) : List Nat → RetryResult
  | [] => { outcome := Except.error "loop exhausted", attemptsMade := 0, sleepsMs := [] }
  | i :: rest =>
    let failWith (msg : String) : RetryResult :=
      if i == 2 then
        { outcome := Except.error msg, attemptsMade := i + 1, sleepsMs := [] }
      else
        let r := retryLoop att rest
        { outcome := r.outcome, attemptsMade := r.attemptsMade,
          sleepsMs := 500 * (i + 1) :: r.sleepsMs }
    match att i with
    | AttemptOutcome.transportError m => failWith m
    | AttemptOutcome.response s b =>
      if raise_for_status s then failWith ("HTTP " ++ toString s)
      else { outcome := Except.ok (s, b), attemptsMade := i + 1, sleepsMs := [] }

/-- `request_with_retry`: run the loop over attempt indices `0, 1, 2`. -/
def request_with_retry (att : Nat → AttemptOutcome) : RetryResult :=
  retryLoop att [0, 1, 2]

/-- An attempt oracle whose every attempt returns HTTP 304 Not Modified:
a non-2xx status on which `raise_for_status` does not raise. -/
def alwaysNotModified : Nat → AttemptOutcome :=
  fun _ => AttemptOutcome.response 304 PyVal.none

/-! ## User platform functions -/

/-- The `contact` dict built in `do_POST` (keys `FirstName`, `LastName`,
`Email`, `Product`, `Plan`), modelled as a structure. -/
structure Contact where
  FirstName : PyVal
  LastName : PyVal
  Email : PyVal
  Product : PyVal
  Plan : PyVal
deriving Repr

/-- The local variables computed in `do_POST` lines 33-45: the raw
`email`, the defaulted `product`, `amount`, `date`, and the `contact`
dict. -/
structure NormEvent where
  email : PyVal
  product : PyVal
  amount : PyVal
  date : PyVal
  contact : Contact
deriving Repr

/-- The normalization performed in `do_POST`:
`email = txn.get("email")`,
`product = txn.get("product_name", "Unknown Product")`,
`amount = txn.get("amount") or "0"`,
`date = txn.get("date") or datetime.utcnow().isoformat()` (the current
time is the `now` argument), and the `contact` dict with its defaults. -/
def normalize (txn : List (String × PyVal)) (now : String) : NormEvent :=
  let email := (dictGet txn "email").getD PyVal.none
  let product := (dictGet txn "product_name").getD (PyVal.str "Unknown Product")
  let amount0 := (dictGet txn "amount").getD PyVal.none
  let amount := if truthy amount0 then amount0 else PyVal.str "0"
  let date0 := (dictGet txn "date").getD PyVal.none
  let date := if truthy date0 then date0 else PyVal.str now
  { email := email, product := product, amount := amount, date := date,
    contact :=
      { FirstName := (dictGet txn "first_name").getD (PyVal.str "First"),
        LastName := (dictGet txn "last_name").getD (PyVal.str "Last"),
        Email := email,
        Product := product,
        Plan := (dictGet txn "plan").getD (PyVal.str DEFAULT_PLAN) } }

/-- Observable calls made by `process_purchase`: the two remote-platform
calls (body = the JSON payload sent) and the simulated welcome email. -/
inductive CallEv where
  | create (payload : List (String × PyVal))
  | update (userId : PyVal) (payload : List (String × PyVal))
  | welcome (email : PyVal) (existing : Bool)
deriving Repr

/-- `get_user_by_email(email)`: `return None  # Always create new for demo`. -/
def get_user_by_email (_email : PyVal) : Option PyVal :=
  Option.none

/-- Python `v["k"]` on a modelled dict value; only reached on the update
branch of `process_purchase`, which `get_user_by_email` makes
unreachable. -/
def pyIndexStr (v : PyVal) (k : String) : PyVal :=
  match v with
  | PyVal.obj fields => (dictGet fields k).getD PyVal.none
  | _ => PyVal.none

/-- The JSON payload `create_user` sends: a fresh id (the `uuid`
argument models `str(uuid.uuid4())`), the contact fields, and a
`joined` timestamp (`now` models `datetime.utcnow().isoformat()`). -/
def create_user_payload (contact : Contact) (uuid now : String) :
    List (String × PyVal) :=
  [("id", PyVal.str uuid),
   ("first_name", contact.FirstName),
   ("last_name", contact.LastName),
   ("email", contact.Email),
   ("plan", contact.Plan),
   ("product", contact.Product),
   ("joined", PyVal.str now)]

/-- The JSON payload `update_user` sends. -/
def update_user_payload (contact : Contact) (now : String) :
    List (String × PyVal) :=
  [("plan", contact.Plan), ("last_updated", PyVal.str now)]

/-- `process_purchase(contact)`.  The outcome of each (already retried)
remote call is supplied by the oracle `net`; the function returns the
`{"action": ..., "result": ...}` pair (or the propagated exception) and
the list of calls it made, in order. -/
def process_purchase (contact : Contact) (uuid now : String)
    (net : CallEv → Except String PyVal) :
    Except String (String × PyVal) × List CallEv :=
  match get_user_by_email contact.Email with
  | some user =>
    let call := CallEv.update (pyIndexStr user "id") (update_user_payload contact now)
    match net call with
    | Except.ok updated =>
      (Except.ok ("updated", updated), [call, CallEv.welcome contact.Email true])
    | Except.error e => (Except.error e, [call])
  | Option.none =>
    let call := CallEv.create (create_user_payload contact uuid now)
    match net call with
    | Except.ok newUser =>
      (Except.ok ("created", newUser), [call, CallEv.welcome contact.Email false])
    | Except.error e => (Except.error e, [call])

/-- The remote-platform calls in a trace (welcome emails excluded). -/
def remoteCalls (t : List CallEv) : List CallEv :=
  t.filter fun e =>
    match e with
    | CallEv.welcome _ _ => false
    | _ => true

/-! ## HTTP handler (`handler.do_POST`) -/

/-- The handler's observable response: `_send_response` with the success
body (a 200), `_send_error` with a status code and message, or an
uncaught exception escaping `do_POST` (no response written there). -/
inductive HResp where
  | success (userAction : String) (rowsWritten : Int)
  | httpError (code : Nat) (msg : String)
  | crash
deriving Repr

/-- `handler.do_POST` after JSON decoding (a decode failure answers 400
before any of the modelled state is touched).  `payload` is the decoded
body; `uuid` and `now` model the fresh uuid and the processing time;
`net` supplies remote-call outcomes; `file` is the sales file.  Returns
the response, the resulting sales file, and the remote-call trace.
`payload.get("purchase", {})` requires the body to be a dict and the
`purchase` value (when present) to be a dict; other shapes raise an
uncaught `AttributeError`, modelled as `HResp.crash`. -/
def do_POST (payload : PyVal) (uuid now : String)
    (net : CallEv → Except String PyVal) (file : SalesFile) :
    HResp × SalesFile × List CallEv :=
  match payload with
  | PyVal.obj pf =>
    let txnOpt : Option (List (String × PyVal)) :=
      match dictGet pf "purchase" with
      | Option.none => some []
      | some (PyVal.obj fields) => some fields
      | some _ => Option.none
    match txnOpt with
    | Option.none => (HResp.crash, file, [])
    | some txn =>
      let ev := normalize txn now
      match process_purchase ev.contact uuid now net with
      | (Except.ok res, t) =>
        let file' := append_to_sales_csv (csvField ev.date) (csvField ev.email)
          (csvField ev.product) (csvField ev.amount) (csvField ev.contact.Plan) file
        (HResp.success res.1 (get_sales_row_count file'), file', t)
      | (Except.error e, t) => (HResp.httpError 500 e, file, t)
  | _ => (HResp.crash, file, [])

/-- One webhook request in a sequence: the `purchase` sub-object of its
body, and the fresh uuid and processing time of that request. -/
structure Req where
  txn : List (String × PyVal)
  uuid : String
  now : String
deriving Repr

/-- The JSON body `{"purchase": {...}}` of a request. -/
def payloadOf (q : Req) : PyVal :=
  PyVal.obj [("purchase", PyVal.obj q.txn)]

/-- An oracle on which every remote call succeeds (the remote platform
answers 2xx with some JSON body within the retry budget). -/
def netOk : CallEv → Except String PyVal :=
  fun _ => Except.ok (PyVal.obj [])

/-- Run a sequence of webhook requests through `do_POST`, threading the
sales file; returns the final file. -/
def runRequests (reqs : List Req) (net : CallEv → Except String PyVal)
    (file : SalesFile) : SalesFile :=
  reqs.foldl (fun f q => (do_POST (payloadOf q) q.uuid q.now net f).2.1) file

/-- The error message the retry loop re-raises when its final attempt
fails. -/
def attemptError : AttemptOutcome → String
  | AttemptOutcome.transportError m => m
  | AttemptOutcome.response s _ => "HTTP " ++ toString s

/-- The outcome `request_with_retry` returns for the attempt on which it
stops with a success (only reached when the attempt does not fail). -/
def okOf : AttemptOutcome → Except String (Nat × PyVal)
  | AttemptOutcome.transportError m => Except.error m
  | AttemptOutcome.response s b => Except.ok (s, b)

/-- The ledger write a successful request performs: one
`append_to_sales_csv` of the normalized event's fields. -/
def reqAppend (txn : List (String × PyVal)) (now : String) (f : SalesFile) : SalesFile :=
  let ev := normalize txn now
  append_to_sales_csv (csvField ev.date) (csvField ev.email) (csvField ev.product)
    (csvField ev.amount) (csvField ev.contact.Plan) f

/-- The five field strings a request writes to the ledger, in column
order. -/
def reqRow (txn : List (String × PyVal)) (now : String) : List String :=
  [csvField (normalize txn now).date, csvField (normalize txn now).email,
   csvField (normalize txn now).product, csvField (normalize txn now).amount,
   csvField (normalize txn now).contact.Plan]

/-- A sales-file state from which row counting is exact: the file is
absent, or it is the header followed by rows that pass the
`append_to_sales_csv` filter. -/
def cleanLedger (f : SalesFile) : Prop :=
  f = Option.none ∨
    ∃ rows, f = some (header :: rows) ∧ ∀ r ∈ rows, wellFormedRow r = true

end Crm

namespace Crm

/-! ## Helper lemmas -/

/-- Since `get_user_by_email` returns `None`, `process_purchase` always
takes the create branch. -/
theorem process_purchase_unfold (contact : Contact) (uuid now : String)
    (net : CallEv → Except String PyVal) :
    process_purchase contact uuid now net =
      match net (CallEv.create (create_user_payload contact uuid now)) with
      | Except.ok newUser =>
        (Except.ok ("created", newUser),
         [CallEv.create (create_user_payload contact uuid now),
          CallEv.welcome contact.Email false])
      | Except.error e =>
        (Except.error e, [CallEv.create (create_user_payload contact uuid now)]) :=
  rfl

/-- Evaluation of `do_POST` on a flat `purchase` payload when every
remote call succeeds. -/
theorem do_POST_ok (txn : List (String × PyVal)) (uuid now : String) (f : SalesFile) :
    do_POST (PyVal.obj [("purchase", PyVal.obj txn)]) uuid now netOk f =
      (HResp.success "created" (get_sales_row_count (reqAppend txn now f)),
       reqAppend txn now f,
       [CallEv.create (create_user_payload (normalize txn now).contact uuid now),
        CallEv.welcome (normalize txn now).email false]) :=
  rfl

/-! ## Claims -/

/-- Claim C10 (confirmed): `get_sales_row_count` returns `0` when the
sales file does not exist; for an existing file it returns the number
of lines minus one, so an existing zero-line file yields `-1`. -/
theorem c10_row_count_semantics :
    get_sales_row_count Option.none = 0 ∧
    (∀ recs : List (List String), get_sales_row_count (some recs) = (recs.length : Int) - 1) ∧
    get_sales_row_count (some ([] : List (List String))) = -1 := by
  exact ⟨rfl, fun recs => rfl, rfl⟩

/-- Claim C8 (confirmed): the lookup is stubbed to `None` for every
input, so no update call ever occurs and every successful processing
outcome carries action `created`. -/
theorem c8_lookup_stubbed :
    (∀ e : PyVal, get_user_by_email e = Option.none) ∧
    (∀ (contact : Contact) (uuid now : String) (net : CallEv → Except String PyVal),
      (∀ uid body, CallEv.update uid body ∉ (process_purchase contact uuid now net).2) ∧
      (∀ r, (process_purchase contact uuid now net).1 = Except.ok r → r.1 = "created")) := by
  constructor
  · intro e; rfl
  · intro contact uuid now net
    rw [process_purchase_unfold]
    cases h : net (CallEv.create (create_user_payload contact uuid now)) with
    | ok v =>
      refine ⟨?_, ?_⟩
      · intro uid body hmem
        simp only [List.mem_cons, List.mem_singleton] at hmem
        rcases hmem with h1 | h1 | h1 <;> cases h1
      · intro r hr
        cases hr
        rfl
    | error e =>
      refine ⟨?_, ?_⟩
      · intro uid body hmem
        simp only [List.mem_singleton] at hmem
        cases hmem
      · intro r hr
        cases hr

/-- Witness for C8 at concrete inputs. -/
theorem c8_witness :
    get_user_by_email (PyVal.str "jane@example.com") = Option.none ∧
    CallEv.update PyVal.none [] ∉
      (process_purchase ⟨PyVal.str "F", PyVal.str "L", PyVal.str "jane@example.com",
        PyVal.str "P", PyVal.str "free"⟩ "u1" "T0" netOk).2 := by
  have h := c8_lookup_stubbed
  exact ⟨h.1 (PyVal.str "jane@example.com"),
    (h.2 ⟨PyVal.str "F", PyVal.str "L", PyVal.str "jane@example.com",
      PyVal.str "P", PyVal.str "free"⟩ "u1" "T0" netOk).1 PyVal.none []⟩

/-- Claim C7 (confirmed): processing makes exactly one remote call — an
update (action `updated`) when the lookup finds a user, a create
carrying the fresh id (action `created`) when it does not.  With the
stubbed lookup the update case holds vacuously. -/
theorem c7_exactly_one_path (contact : Contact) (uuid now : String)
    (net : CallEv → Except String PyVal) :
    (remoteCalls (process_purchase contact uuid now net).2).length = 1 ∧
    (∀ u, get_user_by_email contact.Email = some u →
      CallEv.update (pyIndexStr u "id") (update_user_payload contact now) ∈
        (process_purchase contact uuid now net).2 ∧
      (∀ r, (process_purchase contact uuid now net).1 = Except.ok r → r.1 = "updated")) ∧
    (get_user_by_email contact.Email = Option.none →
      CallEv.create (create_user_payload contact uuid now) ∈
        (process_purchase contact uuid now net).2 ∧
      (∀ r, (process_purchase contact uuid now net).1 = Except.ok r → r.1 = "created")) := by
  rw [process_purchase_unfold]
  cases h : net (CallEv.create (create_user_payload contact uuid now)) with
  | ok v =>
    refine ⟨?_, ?_, ?_⟩
    · rfl
    · intro u hu; exact absurd hu (by intro hx; exact Option.noConfusion hx)
    · intro _
      refine ⟨List.mem_cons_self _ _, ?_⟩
      intro r hr; cases hr; rfl
  | error e =>
    refine ⟨?_, ?_, ?_⟩
    · rfl
    · intro u hu; exact absurd hu (by intro hx; exact Option.noConfusion hx)
    · intro _
      refine ⟨List.mem_singleton_self _, ?_⟩
      intro r hr; cases hr

/-- Witness for C7 at concrete inputs. -/
theorem c7_witness :
    (remoteCalls (process_purchase ⟨PyVal.str "Jane", PyVal.str "Doe",
      PyVal.str "jane@example.com", PyVal.str "CRM Pro", PyVal.str "gold"⟩
      "u1" "T0" netOk).2).length = 1 ∧
    CallEv.create (create_user_payload ⟨PyVal.str "Jane", PyVal.str "Doe",
      PyVal.str "jane@example.com", PyVal.str "CRM Pro", PyVal.str "gold"⟩ "u1" "T0") ∈
      (process_purchase ⟨PyVal.str "Jane", PyVal.str "Doe",
        PyVal.str "jane@example.com", PyVal.str "CRM Pro", PyVal.str "gold"⟩
        "u1" "T0" netOk).2 := by
  have h := c7_exactly_one_path ⟨PyVal.str "Jane", PyVal.str "Doe",
    PyVal.str "jane@example.com", PyVal.str "CRM Pro", PyVal.str "gold"⟩ "u1" "T0" netOk
  exact ⟨h.1, (h.2.2 rfl).1⟩

/-- Claim C6 (confirmed): one append rewrites the file as the header,
then exactly the rows passing the well-formedness filter in their
original order, then the one new row. -/
theorem c6_append_rewrite (d e p a pl : String) (recs : List (List String)) :
    append_to_sales_csv d e p a pl (some recs) =
      some (header :: (recs.filter wellFormedRow ++ [[d, e, p, a, pl]])) ∧
    List.Sublist (recs.filter wellFormedRow) recs ∧
    (∀ r ∈ recs.filter wellFormedRow, wellFormedRow r = true) ∧
    (∀ r ∈ recs, wellFormedRow r = true → r ∈ recs.filter wellFormedRow) := by
  refine ⟨rfl, List.filter_sublist _, ?_, ?_⟩
  · intro r hr; exact (List.mem_filter.mp hr).2
  · intro r hr hwf; exact List.mem_filter.mpr ⟨hr, hwf⟩

/-- Witness for C6 at a concrete file with one malformed and one
well-formed row. -/
theorem c6_witness :
    append_to_sales_csv "D" "E" "P" "A" "L"
        (some [["junk"], ["d0", "e0", "p0", "a0", "l0"]]) =
      some [header, ["d0", "e0", "p0", "a0", "l0"], ["D", "E", "P", "A", "L"]] := by
  have h := c6_append_rewrite "D" "E" "P" "A" "L" [["junk"], ["d0", "e0", "p0", "a0", "l0"]]
  rw [h.1]
  rfl

/-- Claim C2 (corrected): every appended row is the fixed 5-tuple
`(date, email, product, amount, plan)` in that order, and the header
row is `date,email,product,amount,plan`. -/
theorem c2_row_shape (d e p a pl : String) (file : SalesFile) :
    ∃ recs, append_to_sales_csv d e p a pl file = some recs ∧
      recs.head? = some header ∧
      header = ["date", "email", "product", "amount", "plan"] ∧
      recs.getLast? = some [d, e, p, a, pl] ∧
      [d, e, p, a, pl].length = 5 := by
  cases file with
  | none =>
    exact ⟨_, rfl, rfl, rfl, rfl, rfl⟩
  | some recs =>
    refine ⟨_, rfl, rfl, rfl, ?_, rfl⟩
    rw [show header :: (recs.filter wellFormedRow ++ [[d, e, p, a, pl]]) =
      (header :: recs.filter wellFormedRow) ++ [[d, e, p, a, pl]] from rfl]
    exact List.getLast?_concat _

/-- Counterexample to C2 as stated: the file written on an empty store
has the 5-field header `date,email,product,amount,plan`, not the
4-field `date,email,purchase_type,amount`. -/
theorem c2_counterexample :
    append_to_sales_csv "d" "e" "p" "a" "l" Option.none =
      some [["date", "email", "product", "amount", "plan"], ["d", "e", "p", "a", "l"]] ∧
    String.intercalate "," ["date", "email", "product", "amount", "plan"] ≠
      "date,email,purchase_type,amount" ∧
    ["d", "e", "p", "a", "l"].length ≠ 4 := by
  refine ⟨rfl, by decide, by decide⟩

/-- Full evaluation of `request_with_retry` by the failure pattern of
the three attempts. -/
theorem request_with_retry_eval (att : Nat → AttemptOutcome) :
    request_with_retry att =
      if attemptFails (att 0) = true then
        if attemptFails (att 1) = true then
          if attemptFails (att 2) = true then
            ⟨Except.error (attemptError (att 2)), 3, [500, 1000]⟩
          else ⟨okOf (att 2), 3, [500, 1000]⟩
        else ⟨okOf (att 1), 2, [500]⟩
      else ⟨okOf (att 0), 1, []⟩ := by
  simp only [request_with_retry, retryLoop]
  cases h0 : att 0 with
  | transportError m0 =>
    simp only [attemptFails, if_true]
    cases h1 : att 1 with
    | transportError m1 =>
      simp only [attemptFails, if_true]
      cases h2 : att 2 with
      | transportError m2 => simp [attemptFails, attemptError]
      | response s2 b2 =>
        by_cases hr2 : raise_for_status s2 = true
        · simp [attemptFails, attemptError, hr2]
        · simp [attemptFails, attemptError, okOf, hr2]
    | response s1 b1 =>
      by_cases hr1 : raise_for_status s1 = true
      · simp only [attemptFails, hr1, if_true]
        cases h2 : att 2 with
        | transportError m2 => simp [attemptFails, attemptError, hr1]
        | response s2 b2 =>
          by_cases hr2 : raise_for_status s2 = true
          · simp [attemptFails, attemptError, hr1, hr2]
          · simp [attemptFails, attemptError, okOf, hr1, hr2]
      · simp [attemptFails, okOf, hr1]
  | response s0 b0 =>
    by_cases hr0 : raise_for_status s0 = true
    · simp only [attemptFails, hr0, if_true]
      cases h1 : att 1 with
      | transportError m1 =>
        simp only [attemptFails, if_true]
        cases h2 : att 2 with
        | transportError m2 => simp [attemptFails, attemptError, hr0]
        | response s2 b2 =>
          by_cases hr2 : raise_for_status s2 = true
          · simp [attemptFails, attemptError, hr0, hr2]
          · simp [attemptFails, attemptError, okOf, hr0, hr2]
      | response s1 b1 =>
        by_cases hr1 : raise_for_status s1 = true
        · simp only [attemptFails, hr1, if_true]
          cases h2 : att 2 with
          | transportError m2 => simp [attemptFails, attemptError, hr0, hr1]
          | response s2 b2 =>
            by_cases hr2 : raise_for_status s2 = true
            · simp [attemptFails, attemptError, hr0, hr1, hr2]
            · simp [attemptFails, attemptError, okOf, hr0, hr1, hr2]
        · simp [attemptFails, okOf, hr0, hr1]
    · simp [attemptFails, okOf, hr0]

/-- Claim C4 (corrected): the retry wrapper makes at most 3 attempts,
retries on a transport error or a 4xx/5xx response (an attempt fails
exactly when its response status is in `[400, 600)` — a non-2xx status
outside that range, such as a 3xx, counts as success), sleeps
`0.5 × N` seconds before the Nth retry (0.5s then 1.0s), returns the
response of the first non-failing attempt immediately, and propagates
the third attempt's failure with no further retry. -/
theorem c4_retry_policy (att : Nat → AttemptOutcome) :
    (request_with_retry att).attemptsMade ≤ 3 ∧
    (attemptFails (att 0) = false →
      request_with_retry att = ⟨okOf (att 0), 1, []⟩) ∧
    (attemptFails (att 0) = true → attemptFails (att 1) = false →
      request_with_retry att = ⟨okOf (att 1), 2, [500]⟩) ∧
    (attemptFails (att 0) = true → attemptFails (att 1) = true →
      attemptFails (att 2) = false →
      request_with_retry att = ⟨okOf (att 2), 3, [500, 1000]⟩) ∧
    (attemptFails (att 0) = true → attemptFails (att 1) = true →
      attemptFails (att 2) = true →
      request_with_retry att = ⟨Except.error (attemptError (att 2)), 3, [500, 1000]⟩) ∧
    (∀ s b, attemptFails (AttemptOutcome.response s b) = true ↔ (400 ≤ s ∧ s < 600)) := by
  have he := request_with_retry_eval att
  refine ⟨?_, ?_, ?_, ?_, ?_, ?_⟩
  · rw [he]; split_ifs <;> simp
  · intro h0; rw [he, if_neg (by simp [h0])]
  · intro h0 h1; rw [he, if_pos h0, if_neg (by simp [h1])]
  · intro h0 h1 h2; rw [he, if_pos h0, if_pos h1, if_neg (by simp [h2])]
  · intro h0 h1 h2; rw [he, if_pos h0, if_pos h1, if_pos h2]
  · intro s b; simp [attemptFails, raise_for_status]

/-- Witness for C4: a client that always fails with a transport error
fails after exactly 3 attempts, with both backoff delays observed. -/
theorem c4_witness :
    request_with_retry (fun _ => AttemptOutcome.transportError "boom") =
      ⟨Except.error "boom", 3, [500, 1000]⟩ := by
  have h := c4_retry_policy (fun _ => AttemptOutcome.transportError "boom")
  exact h.2.2.2.2.1 rfl rfl rfl

/-- Counterexample to C4 as stated: a 304 response is non-2xx, yet the
wrapper returns it as a success on the first attempt instead of
treating it like a transport failure. -/
theorem c4_counterexample :
    request_with_retry alwaysNotModified =
      ⟨Except.ok (304, PyVal.none), 1, []⟩ ∧
    ¬(200 ≤ 304 ∧ 304 < 300) := by
  exact ⟨rfl, by decide⟩

/-- A freshly appended row passes the well-formedness filter whenever
its date field is not the literal string that marks a header row. -/
theorem wellFormedRow_new (d e p a pl : String) (hd : d ≠ "date") :
    wellFormedRow [d, e, p, a, pl] = true := by
  simp [wellFormedRow, hd]

/-- The header row itself is dropped by the filter. -/
theorem wellFormedRow_header : wellFormedRow header = false := rfl

/-- One append on a clean (or absent) ledger keeps it clean and raises
the reported row count by exactly one. -/
theorem append_clean_step (d e p a pl : String) (f : SalesFile)
    (hf : cleanLedger f) (hwf : wellFormedRow [d, e, p, a, pl] = true) :
    cleanLedger (append_to_sales_csv d e p a pl f) ∧
    get_sales_row_count (append_to_sales_csv d e p a pl f) =
      get_sales_row_count f + 1 := by
  rcases hf with hf | ⟨rows, hf, hrows⟩
  · subst hf
    refine ⟨Or.inr ⟨[[d, e, p, a, pl]], rfl, ?_⟩, rfl⟩
    intro r hr
    simp only [List.mem_singleton] at hr
    subst hr
    exact hwf
  · subst hf
    have hfilter : (header :: rows).filter wellFormedRow = rows := by
      rw [List.filter_cons_of_neg (by simp [wellFormedRow_header]),
        List.filter_eq_self.mpr hrows]
    constructor
    · refine Or.inr ⟨rows ++ [[d, e, p, a, pl]], ?_, ?_⟩
      · simp [append_to_sales_csv, hfilter]
      · intro r hr
        rcases List.mem_append.mp hr with h | h
        · exact hrows r h
        · simp only [List.mem_singleton] at h
          subst h
          exact hwf
    · simp only [append_to_sales_csv, hfilter, get_sales_row_count,
        List.length_cons, List.length_append, List.length_singleton, List.length_nil]
      push_cast
      omega

/-- Running a sequence of succeeding requests from a clean ledger keeps
it clean and adds one counted row per request. -/
theorem runRequests_clean_count (reqs : List Req) :
    ∀ f : SalesFile, cleanLedger f →
      (∀ q ∈ reqs, csvField (normalize q.txn q.now).date ≠ "date") →
      cleanLedger (runRequests reqs netOk f) ∧
      get_sales_row_count (runRequests reqs netOk f) =
        get_sales_row_count f + reqs.length := by
  induction reqs with
  | nil =>
    intro f hf _
    exact ⟨hf, by simp [runRequests]⟩
  | cons q qs ih =>
    intro f hf hd
    have hq := hd q (List.mem_cons_self q qs)
    have hnew := wellFormedRow_new (csvField (normalize q.txn q.now).date)
      (csvField (normalize q.txn q.now).email) (csvField (normalize q.txn q.now).product)
      (csvField (normalize q.txn q.now).amount) (csvField (normalize q.txn q.now).contact.Plan) hq
    have hstep := append_clean_step (csvField (normalize q.txn q.now).date)
      (csvField (normalize q.txn q.now).email) (csvField (normalize q.txn q.now).product)
      (csvField (normalize q.txn q.now).amount) (csvField (normalize q.txn q.now).contact.Plan)
      f hf hnew
    have hfile : (do_POST (payloadOf q) q.uuid q.now netOk f).2.1 =
        reqAppend q.txn q.now f := by
      simp only [payloadOf]
      rw [do_POST_ok]
    have hrun : runRequests (q :: qs) netOk f =
        runRequests qs netOk (reqAppend q.txn q.now f) := by
      simp only [runRequests, List.foldl_cons]
      rw [hfile]
    rw [hrun]
    have hstep' : cleanLedger (reqAppend q.txn q.now f) ∧
        get_sales_row_count (reqAppend q.txn q.now f) = get_sales_row_count f + 1 := by
      simpa only [reqAppend] using hstep
    have hrest := ih (reqAppend q.txn q.now f) hstep'.1
      (fun r hr => hd r (List.mem_cons_of_mem _ hr))
    refine ⟨hrest.1, ?_⟩
    rw [hrest.2, hstep'.2]
    push_cast [List.length_cons]
    ring

/-- Claim C5 (corrected): starting from a clean ledger (absent, or the
header followed by rows passing the filter), `N` successful sequential
requests raise the reported row count by exactly `N`, and every such
request succeeds with action `created`.  The `csvPlain` hypotheses
confine the statement to inputs where every stored field occupies one
physical line, so the modelled count coincides with the source's
line count; the date hypothesis excludes the degenerate row that the
next append's filter would drop. -/
theorem c5_row_count_after_requests (reqs : List Req) (f : SalesFile)
    (hf : cleanLedger f)
    (_hplainf : ∀ recs, f = some recs → ∀ r ∈ recs, r.all csvPlain = true)
    (_hplain : ∀ q ∈ reqs, (reqRow q.txn q.now).all csvPlain = true)
    (hdates : ∀ q ∈ reqs, csvField (normalize q.txn q.now).date ≠ "date") :
    get_sales_row_count (runRequests reqs netOk f) =
      get_sales_row_count f + reqs.length ∧
    ∀ q ∈ reqs, ∀ g : SalesFile, ∃ n,
      (do_POST (payloadOf q) q.uuid q.now netOk g).1 = HResp.success "created" n := by
  refine ⟨(runRequests_clean_count reqs f hf hdates).2, ?_⟩
  intro q _ g
  exact ⟨get_sales_row_count (reqAppend q.txn q.now g), rfl⟩

/-- Witness for C5: one request against an absent ledger reports one
row. -/
theorem c5_witness :
    get_sales_row_count (runRequests [{ txn := [], uuid := "u1", now := "T0" }]
      netOk Option.none) = 1 := by
  have h := c5_row_count_after_requests [{ txn := [], uuid := "u1", now := "T0" }]
    Option.none (Or.inl rfl)
    (by intro recs hrecs; cases hrecs)
    (by
      intro q hq
      simp only [List.mem_singleton] at hq
      subst hq
      decide)
    (by
      intro q hq
      simp only [List.mem_singleton] at hq
      subst hq
      decide)
  simpa using h.1

/-- Counterexample to C5 as stated, in two parts.  First, with a
pre-existing malformed row the count before is 1, yet after one
successful request it is still 1 (the rewrite dropped the malformed
row), not 1 + 1.  Second, even from an absent file, two successful
sequential requests whose first writes the date field `date` report a
count of 1, not 0 + 2: the second append's filter drops the first row
as a header lookalike. -/
theorem c5_counterexample :
    get_sales_row_count (some [header, ["x"]]) = 1 ∧
    get_sales_row_count (runRequests [{ txn := [], uuid := "u1", now := "T0" }]
      netOk (some [header, ["x"]])) = 1 ∧
    (1 : Int) ≠ 1 + 1 ∧
    (do_POST (PyVal.obj [("purchase", PyVal.obj [("date", PyVal.str "date")])])
      "u1" "T0" netOk Option.none).1 = HResp.success "created" 1 ∧
    (do_POST (PyVal.obj [("purchase", PyVal.obj [])]) "u2" "T1" netOk
      (some [header, ["date", "", "Unknown Product", "0", "free"]])).1 =
      HResp.success "created" 1 ∧
    get_sales_row_count (runRequests
      [{ txn := [("date", PyVal.str "date")], uuid := "u1", now := "T0" },
       { txn := [], uuid := "u2", now := "T1" }] netOk Option.none) = 1 ∧
    (1 : Int) ≠ 0 + 2 := by
  exact ⟨rfl, rfl, by decide, rfl, rfl, rfl, by decide⟩

/-- Claim C1 (corrected): the handler performs no email validation.  A
normalized event whose email is missing (`None`) or empty is processed
like any other: the response is the 200 success body, the ledger row is
appended with an empty email field, and the Remote User Client receives
a create call whose payload carries the missing email. -/
theorem c1_no_email_validation (txn : List (String × PyVal)) (uuid now : String)
    (f : SalesFile)
    (hemail : (normalize txn now).email = PyVal.none ∨
      (normalize txn now).email = PyVal.str "") :
    (∃ n, (do_POST (PyVal.obj [("purchase", PyVal.obj txn)]) uuid now netOk f).1 =
      HResp.success "created" n) ∧
    (do_POST (PyVal.obj [("purchase", PyVal.obj txn)]) uuid now netOk f).2.1 =
      append_to_sales_csv (csvField (normalize txn now).date) ""
        (csvField (normalize txn now).product) (csvField (normalize txn now).amount)
        (csvField (normalize txn now).contact.Plan) f ∧
    CallEv.create (create_user_payload (normalize txn now).contact uuid now) ∈
      (do_POST (PyVal.obj [("purchase", PyVal.obj txn)]) uuid now netOk f).2.2 ∧
    dictGet (create_user_payload (normalize txn now).contact uuid now) "email" =
      some (normalize txn now).email := by
  have hcsv : csvField (normalize txn now).email = "" := by
    rcases hemail with h | h <;> rw [h] <;> rfl
  refine ⟨⟨get_sales_row_count (reqAppend txn now f), by rw [do_POST_ok]⟩, ?_, ?_, rfl⟩
  · rw [do_POST_ok]
    simp only [reqAppend]
    rw [hcsv]
  · rw [do_POST_ok]
    exact List.mem_cons_self _ _

/-- Witness for C1: a purchase object with no fields at all is accepted
and written to the ledger with an empty email column. -/
theorem c1_witness :
    (do_POST (PyVal.obj [("purchase", PyVal.obj [])]) "u1" "T0" netOk
      Option.none).2.1 =
      some [header, ["T0", "", "Unknown Product", "0", "free"]] := by
  have h := c1_no_email_validation [] "u1" "T0" Option.none (Or.inl rfl)
  rw [h.2.1]
  rfl

/-- Counterexample to C1 as stated: on a payload whose purchase object
has no email the handler answers with the success body (not a 400), the
ledger gains a row, and remote calls are made. -/
theorem c1_counterexample :
    (do_POST (PyVal.obj [("purchase", PyVal.obj [])]) "u1" "T0" netOk
      Option.none).1 = HResp.success "created" 1 ∧
    (do_POST (PyVal.obj [("purchase", PyVal.obj [])]) "u1" "T0" netOk
      Option.none).2.1 ≠ Option.none ∧
    (do_POST (PyVal.obj [("purchase", PyVal.obj [])]) "u1" "T0" netOk
      Option.none).2.2 ≠ [] := by
  refine ⟨rfl, ?_, ?_⟩
  · intro h
    exact Option.noConfusion h
  · intro h
    exact List.noConfusion h

/-- Claim C3 (corrected): `do_POST` reads only the flat `purchase` key.
Any payload without that key — in particular the nested
`action`/`action_details.transaction_details` shape — is processed
exactly as if the purchase object were empty, so none of the aliased
fields is mapped. -/
theorem c3_no_nested_shape (pf : List (String × PyVal)) (uuid now : String)
    (net : CallEv → Except String PyVal) (f : SalesFile)
    (hnp : dictGet pf "purchase" = Option.none) :
    do_POST (PyVal.obj pf) uuid now net f =
      do_POST (PyVal.obj [("purchase", PyVal.obj [])]) uuid now net f := by
  simp only [do_POST]
  rw [hnp]
  rfl

/-- Witness for C3 at the nested action-shape payload. -/
theorem c3_witness :
    do_POST (PyVal.obj [("action", PyVal.str "buy_product"),
        ("action_details", PyVal.obj [("transaction_details", PyVal.obj
          [("buyer_email", PyVal.str "jane@example.com")])])])
        "u1" "T0" netOk Option.none =
      do_POST (PyVal.obj [("purchase", PyVal.obj [])]) "u1" "T0" netOk Option.none :=
  c3_no_nested_shape _ "u1" "T0" netOk Option.none rfl

/-- Counterexample to C3 as stated: on the nested action-shape payload
the buyer email, product name and amount are not mapped — the ledger
row records an empty email, the default product and the default
amount. -/
theorem c3_counterexample :
    (do_POST (PyVal.obj [("action", PyVal.str "buy_product"),
        ("action_details", PyVal.obj [("transaction_details", PyVal.obj
          [("buyer_email", PyVal.str "jane@example.com"),
           ("product_name", PyVal.str "CRM Pro"),
           ("transaction_base_amount", PyVal.int 49)])])])
        "u1" "T0" netOk Option.none).2.1 =
      some [header, ["T0", "", "Unknown Product", "0", "free"]] ∧
    ("" : String) ≠ "jane@example.com" ∧
    ("Unknown Product" : String) ≠ "CRM Pro" ∧
    ("0" : String) ≠ "49" := by
  exact ⟨rfl, by decide, by decide, by decide⟩

/-- Claim C9 (corrected): normalization defaults — product defaults to
the string `Unknown Product` when absent and is otherwise passed
through; plan defaults to the configured default plan; amount defaults
to the string `"0"` exactly when the raw value is absent or falsy and
is otherwise passed through unparsed; date defaults to the processing
time exactly when the raw value is absent or falsy and is otherwise
passed through unparsed; email is the raw value with no default beyond
Python `None` and no non-empty requirement. -/
theorem c9_normalization_defaults (txn : List (String × PyVal)) (now : String) :
    (dictGet txn "product_name" = Option.none →
      (normalize txn now).product = PyVal.str "Unknown Product") ∧
    (∀ v, dictGet txn "product_name" = some v → (normalize txn now).product = v) ∧
    (dictGet txn "plan" = Option.none →
      (normalize txn now).contact.Plan = PyVal.str DEFAULT_PLAN) ∧
    (truthy ((dictGet txn "amount").getD PyVal.none) = false →
      (normalize txn now).amount = PyVal.str "0") ∧
    (∀ v, dictGet txn "amount" = some v → truthy v = true →
      (normalize txn now).amount = v) ∧
    (truthy ((dictGet txn "date").getD PyVal.none) = false →
      (normalize txn now).date = PyVal.str now) ∧
    (∀ v, dictGet txn "date" = some v → truthy v = true →
      (normalize txn now).date = v) ∧
    (normalize txn now).email = (dictGet txn "email").getD PyVal.none := by
  refine ⟨?_, ?_, ?_, ?_, ?_, ?_, ?_, rfl⟩
  · intro h; simp [normalize, h]
  · intro v h; simp [normalize, h]
  · intro h; simp [normalize, h]
  · intro h; simp [normalize, h]
  · intro v h ht; simp [normalize, h, ht]
  · intro h; simp [normalize, h]
  · intro v h ht; simp [normalize, h, ht]

/-- Witness for C9 at an empty purchase object. -/
theorem c9_witness :
    (normalize [] "T0").product = PyVal.str "Unknown Product" ∧
    (normalize [] "T0").amount = PyVal.str "0" ∧
    (normalize [] "T0").date = PyVal.str "T0" ∧
    (normalize [] "T0").contact.Plan = PyVal.str DEFAULT_PLAN := by
  have h := c9_normalization_defaults [] "T0"
  exact ⟨h.1 rfl, h.2.2.2.1 rfl, h.2.2.2.2.2.1 rfl, h.2.2.1 rfl⟩

/-- Counterexample to C9 as stated: the absent-product default is
`Unknown Product` (not the sentinel `Unknown`), a malformed amount is
passed through rather than defaulted to 0, and an unparseable date is
passed through rather than replaced by the processing time. -/
theorem c9_counterexample :
    (normalize [("amount", PyVal.str "abc"), ("date", PyVal.str "garbage")]
      "T0").product = PyVal.str "Unknown Product" ∧
    PyVal.str "Unknown Product" ≠ PyVal.str "Unknown" ∧
    (normalize [("amount", PyVal.str "abc"), ("date", PyVal.str "garbage")]
      "T0").amount = PyVal.str "abc" ∧
    PyVal.str "abc" ≠ PyVal.int 0 ∧
    PyVal.str "abc" ≠ PyVal.str "0" ∧
    (normalize [("amount", PyVal.str "abc"), ("date", PyVal.str "garbage")]
      "T0").date = PyVal.str "garbage" ∧
    PyVal.str "garbage" ≠ PyVal.str "T0" := by
  refine ⟨rfl, ?_, rfl, ?_, ?_, rfl, ?_⟩
  · intro h; injection h with h'; exact absurd h' (by decide)
  · intro h; exact PyVal.noConfusion h
  · intro h; injection h with h'; exact absurd h' (by decide)
  · intro h; injection h with h'; exact absurd h' (by decide)

end Crm


